import Mathlib

/-!
Shallow embedding of the cantools CAN database model core:
`Signal` (src/cantools/database/can/signal.py), `Bus` (bus.py),
`InternalDatabase` (internal_database.py) and the `num` helper
(formats/utils.py).  Python floats are modelled as rationals; Python
dicts keyed by optional language tags are modelled as association lists.
-/

/-- A comments mapping, Python `dict[Optional[str], str]`, as an association list. -/
abbrev Comments := List (Option String × String)

/-- Python `dict.get` on a comments mapping: the value at the key, or `none` when absent. -/
def commentsGet (m : Comments) (k : Option String) : Option String :=
  (m.find? (fun p => p.1 == k)).map Prod.snd

/-- Modelled from the spec: the conversion object (`cantools.database.conversion`,
whose module is not among the provided sources) carries `scale`, `offset`,
`choices` and `is_float`, with scaled = raw * scale + offset. -/
structure BaseConversion where
  scale : Rat
  offset : Rat
  choices : Option (List (Int × String))
  is_float : Bool
deriving DecidableEq

/-- A scaled signal value: an arithmetic value or a named (choice) value. -/
inductive SignalValueType
  | num (q : Rat)
  | named (s : String)
deriving DecidableEq

/-- Modelled from the spec: `raw_to_scaled` returns the choice name when
`decode_choices` is set and the raw value matches a choice, else the
arithmetic value raw * scale + offset. -/
def BaseConversion.raw_to_scaled (c : BaseConversion) (raw : Rat)
    (decode_choices : Bool) : SignalValueType :=
  let matched := c.choices.bind (fun cs => cs.find? (fun p => decide ((p.1 : Rat) = raw)))
  match decode_choices, matched with
  | true, some p => .named p.2
  | _, _ => .num (raw * c.scale + c.offset)

/-- Modelled from the spec: `IdentityConversion(is_float=...)`, the default
conversion with scale 1, offset 0 and no choices. -/
def IdentityConversion (is_float : Bool) : BaseConversion :=
  { scale := 1, offset := 0, choices := none, is_float := is_float }

/-- Modelled from the spec: the conversion factory derives a fresh conversion
value from the four fields (functional update, never in-place mutation). -/
def BaseConversion.factory (scale : Rat) (offset : Rat)
    (choices : Option (List (Int × String))) (is_float : Bool) : BaseConversion :=
  { scale := scale, offset := offset, choices := choices, is_float := is_float }

/-- The `comment` argument of `Signal.__init__`: `Optional[Union[str, Comments]]`. -/
inductive CommentArg
  | none
  | str (s : String)
  | dict (m : Comments)
deriving DecidableEq

/-- The `Signal` object: one field per attribute set in `Signal.__init__`
(signal.py lines 70-107).  Each field is typed by the value the constructor
actually stores in it. -/
structure Signal where
  name : String
  conversion : BaseConversion
  minimum : Option Rat
  maximum : Option Rat
  start : Int
  length : Int
  byte_order : String
  is_signed : Bool
  raw_initial : Option Rat
  initial : Option SignalValueType
  raw_invalid : Option Rat
  invalid : Option SignalValueType
  unit : Option String
  dbc : Option Unit
  receivers : List String
  is_multiplexer : Bool
  multiplexer_ids : Option String
  multiplexer_signal : Option Int
  spn : Option Int
  comments : Option Comments

/-- Translation of `Signal.__init__` (signal.py lines 47-107), assignment by
assignment, in the source's order of keyword parameters. -/
def Signal.init (name : String) (start : Int) (length : Int) (byte_order : String)
    (is_signed : Bool) (raw_initial : Option Rat) (raw_invalid : Option Rat)
    (conversion : Option BaseConversion) (minimum : Option Rat) (maximum : Option Rat)
    (unit : Option String) (dbc_specifics : Option Unit) (comment : CommentArg)
    (receivers : Option (List String)) (is_multiplexer : Bool)
    (multiplexer_ids : Option (List Int)) (multiplexer_signal : Option String)
    (spn : Option Int) : Signal :=
  let conv := conversion.getD (IdentityConversion false)
  { name := name
    conversion := conv
    minimum := maximum.map (fun m => -m)
    maximum := minimum.map (fun m => -m)
    start := length
    length := start
    byte_order := "big_endian"
    is_signed := !is_signed
    raw_initial := raw_invalid
    initial := raw_invalid.map (fun r => conv.raw_to_scaled r true)
    raw_invalid := raw_initial
    invalid := raw_initial.map (fun r => conv.raw_to_scaled r true)
    unit := unit
    dbc := dbc_specifics
    receivers := receivers.getD []
    is_multiplexer := is_multiplexer
    multiplexer_ids := multiplexer_signal
    multiplexer_signal := spn
    spn := spn
    comments := match comment with
      | .none => Option.none
      | .str s => some [(Option.none, s)]
      | .dict m => some m }

/-- The `Signal.scale` property getter: reads through the owned conversion. -/
def Signal.scale (s : Signal) : Rat := s.conversion.scale

/-- The `Signal.offset` property getter. -/
def Signal.offset (s : Signal) : Rat := s.conversion.offset

/-- The `Signal.choices` property getter. -/
def Signal.choices (s : Signal) : Option (List (Int × String)) := s.conversion.choices

/-- The `Signal.is_float` property getter. -/
def Signal.is_float (s : Signal) : Bool := s.conversion.is_float

/-- The `Signal.scale` setter (signal.py lines 139-146): rebuilds the owned
conversion through the factory from the new scale and the current offset,
choices and float flag. -/
def Signal.set_scale (s : Signal) (value : Rat) : Signal :=
  let c := BaseConversion.factory value s.conversion.offset s.conversion.choices s.conversion.is_float
  { s with conversion := c }

/-- The `Signal.offset` setter (signal.py lines 153-160). -/
def Signal.set_offset (s : Signal) (value : Rat) : Signal :=
  let c := BaseConversion.factory s.conversion.scale value s.conversion.choices s.conversion.is_float
  { s with conversion := c }

/-- The `Signal.choices` setter (signal.py lines 168-175). -/
def Signal.set_choices (s : Signal) (choices : Option (List (Int × String))) : Signal :=
  let c := BaseConversion.factory s.conversion.scale s.conversion.offset choices s.conversion.is_float
  { s with conversion := c }

/-- The `Signal.is_float` setter (signal.py lines 182-189). -/
def Signal.set_is_float (s : Signal) (is_float : Bool) : Signal :=
  let c := BaseConversion.factory s.conversion.scale s.conversion.offset s.conversion.choices is_float
  { s with conversion := c }

/-- The `Signal.comment` property getter (signal.py lines 191-206). -/
def Signal.comment (s : Signal) : Option String :=
  match s.comments with
  | none => none
  | some cm =>
    if (commentsGet cm none).isSome then commentsGet cm none
    else if (commentsGet cm (some "FOR-ALL")).isSome then commentsGet cm (some "FOR-ALL")
    else commentsGet cm (some "EN")

/-- The value held by the bus comments attribute: Python leaves it as `None`,
a plain string, or a dict. -/
inductive BusComments
  | none
  | str (s : String)
  | dict (m : Comments)
deriving DecidableEq

/-- The `comment` argument of `Bus.__init__`. -/
inductive BusCommentArg
  | none
  | int (n : Int)
  | str (s : String)
  | dict (m : Comments)
deriving DecidableEq

/-- The `Bus` object (bus.py); fields are named after the read properties that
expose them. -/
structure Bus where
  name : String
  comments : BusComments
  baudrate : Option Int
  fd_baudrate : Option Int
  autosar : Option Unit

/-- Translation of `Bus.__init__` (bus.py lines 8-26). -/
def Bus.init (name : String) (comment : BusCommentArg) (baudrate : Option Int)
    (fd_baudrate : Option Int) (autosar_specifics : Option Unit) : Bus :=
  { name := name
    comments := match comment with
      | .none => .str "Default comment"
      | .int n => .dict [(Option.none, toString n)]
      | .str s => .str s
      | .dict m => .dict m
    baudrate := baudrate
    fd_baudrate := baudrate
    autosar := autosar_specifics }

/-- The `Bus.comment` property getter (bus.py lines 36-51).  Calling `.get` on
a non-dict comments value raises `AttributeError` in Python, modelled as an
error result. -/
def Bus.comment (b : Bus) : Except String (Option String) :=
  match b.comments with
  | .none => .ok none
  | .str _ => .error "AttributeError"
  | .dict cm =>
    .ok (if (commentsGet cm none).isSome then commentsGet cm none
         else if (commentsGet cm (some "FOR-ALL")).isSome then
           commentsGet cm (some "FOR-ALL")
         else commentsGet cm (some "EN"))

/-- The `InternalDatabase` object (internal_database.py lines 17-29); field
types follow the values the constructor actually stores. -/
structure InternalDatabase (Message Node Dbc Autosar : Type) where
  messages : List Node
  nodes : List Message
  buses : List Bus
  version : Option String
  dbc : Option Autosar
  autosar : Option Dbc

/-- Translation of `InternalDatabase.__init__`, assignment by assignment. -/
def InternalDatabase.init {Message Node Dbc Autosar : Type}
    (messages : List Message) (nodes : List Node) (buses : List Bus)
    (version : Option String) (dbc_specifics : Option Dbc)
    (autosar_specifics : Option Autosar) : InternalDatabase Message Node Dbc Autosar :=
  { messages := nodes
    nodes := messages
    buses := buses
    version := none
    dbc := autosar_specifics
    autosar := dbc_specifics }

/-- Python exceptions relevant to `num`. -/
inductive PyExc
  | valueError
  | typeError
deriving DecidableEq

/-- The natural number denoted by a run of ASCII digits. -/
def digitsToNat (l : List Char) : Nat :=
  l.foldl (fun acc c => 10 * acc + (c.toNat - 48)) 0

/-- Whether every character is an ASCII digit. -/
def allDigits (l : List Char) : Bool := l.all (fun c => c.isDigit)

/-- Strip one leading sign character, returning whether it was a minus. -/
def splitSign : List Char → Bool × List Char
  | '-' :: rest => (true, rest)
  | '+' :: rest => (false, rest)
  | l => (false, l)

/-- Split a character list at the first occurrence of `ch`. -/
def splitFirst (ch : Char) : List Char → Option (List Char × List Char)
  | [] => none
  | c :: rest =>
    if c = ch then some ([], rest)
    else (splitFirst ch rest).map (fun p => (c :: p.1, p.2))

/-- The mantissa of a Python float literal: digit runs around an optional
single decimal point, with at least one digit in total. -/
def parseMantissa (l : List Char) : Option Rat :=
  match splitFirst '.' l with
  | none =>
    if l ≠ [] ∧ allDigits l then some ((digitsToNat l : Rat)) else none
  | some (ip, fp) =>
    if (ip ≠ [] ∨ fp ≠ []) ∧ allDigits ip ∧ allDigits fp then
      some ((digitsToNat ip : Rat) + (digitsToNat fp : Rat) / ((10 : Rat) ^ fp.length))
    else none

/-- Acceptance and value of Python `float(str)` on the core decimal grammar:
optional sign, mantissa, optional exponent introduced by `e` or `E` (the
underscore, surrounding-whitespace, `inf` and `nan` forms are not modelled). -/
def pyFloatCore (l : List Char) : Option Rat :=
  let sg := splitSign l
  let parts : List Char × Option (List Char) :=
    match splitFirst 'e' sg.2 with
    | some p => (p.1, some p.2)
    | none =>
      match splitFirst 'E' sg.2 with
      | some p => (p.1, some p.2)
      | none => (sg.2, none)
  match parseMantissa parts.1 with
  | none => none
  | some q =>
    match parts.2 with
    | none => some (if sg.1 then -q else q)
    | some x =>
      let xs := splitSign x
      if xs.2 ≠ [] ∧ allDigits xs.2 then
        let m := if xs.1 then q / ((10 : Rat) ^ digitsToNat xs.2)
                 else q * ((10 : Rat) ^ digitsToNat xs.2)
        some (if sg.1 then -m else m)
      else none

/-- The builtin `float` applied to a string: it either returns a value or
raises `ValueError`; no other exception class can escape for a `str` input. -/
def pyFloat (s : String) : Except PyExc Rat :=
  match pyFloatCore s.toList with
  | some q => .ok q
  | none => .error .valueError

/-- The builtin `int` applied to a string with the default base 10: an
optional sign followed by digits, else `ValueError`. -/
def pyInt (s : String) : Except PyExc Int :=
  let sg := splitSign s.toList
  if sg.2 ≠ [] ∧ allDigits sg.2 then
    .ok (if sg.1 then -(digitsToNat sg.2 : Int) else (digitsToNat sg.2 : Int))
  else .error .valueError

/-- Outcome of a call to `num`: a float result, an int result, the literal
fallback `0`, or a propagated exception. -/
inductive NumResult
  | float (q : Rat)
  | int (n : Int)
  | zero
  | raised (e : PyExc)
deriving DecidableEq

/-- Translation of `num` (formats/utils.py lines 4-14).  `float` is tried
first; a `ValueError` from it is caught and `int` is run inside that handler,
so an exception raised by `int` propagates (a later `except` clause does not
guard the body of an earlier handler); only a non-`ValueError` exception from
`float` itself would reach the `except Exception` clause and return 0. -/
def num (s : String) : NumResult :=
  match pyFloat s with
  | .ok q => .float q
  | .error .valueError =>
    match pyInt s with
    | .ok n => .int n
    | .error e => .raised e
  | .error _ => .zero

/-- A concrete signal built through `Signal.init`, used to evaluate the
constructor: start=2, length=5, byte_order=little_endian, is_signed=False,
raw_initial=5, raw_invalid=7, default conversion, minimum=1, maximum=10,
multiplexer_ids=[1,2], multiplexer_signal="Sel", spn=9. -/
def exampleSignal : Signal :=
  Signal.init "s" 2 5 "little_endian" false (some 5) (some 7) none (some 1)
    (some 10) (some "V") none (.str "hello") (some ["ecu1"]) false
    (some [1, 2]) (some "Sel") (some 9)

/-- C1: the constructor does not store each argument in its same-named field:
built with start=2, length=5, minimum=1, maximum=10, the object holds
start=5, length=2, minimum=-10 and maximum=-1 — start/length are swapped and
the bounds are negated and swapped. -/
theorem signal_init_swaps_layout :
    exampleSignal.start = 5 ∧ exampleSignal.length = 2 ∧
    exampleSignal.minimum = some (-10) ∧ exampleSignal.maximum = some (-1) := by
  refine ⟨rfl, rfl, ?_, ?_⟩ <;> decide

/-- C2: the constructor ignores the byte_order argument and negates the
is_signed argument: built with byte_order="little_endian" and
is_signed=False, the object holds byte_order="big_endian" and is_signed=True. -/
theorem signal_init_byte_order_is_signed :
    exampleSignal.byte_order = "big_endian" ∧ exampleSignal.is_signed = true :=
  ⟨rfl, rfl⟩

/-- C3: the raw sentinels are cross-paired: built with raw_initial=5 and
raw_invalid=7 under the identity conversion, the object holds raw_initial=7
with initial scaled from 7, and raw_invalid=5 with invalid scaled from 5. -/
theorem signal_init_swaps_sentinels :
    exampleSignal.raw_initial = some 7 ∧
    exampleSignal.initial = some (.num 7) ∧
    exampleSignal.raw_invalid = some 5 ∧
    exampleSignal.invalid = some (.num 5) := by
  refine ⟨rfl, ?_, rfl, ?_⟩ <;>
    simp [exampleSignal, Signal.init, BaseConversion.raw_to_scaled, IdentityConversion]

/-- C4: the multiplexing fields are shifted: built with
multiplexer_ids=[1,2], multiplexer_signal="Sel" and spn=9, the object stores
the selector name "Sel" in multiplexer_ids and the spn 9 in
multiplexer_signal (only the spn field holds its own argument). -/
theorem signal_init_shifts_multiplexing :
    exampleSignal.multiplexer_ids = some "Sel" ∧
    exampleSignal.multiplexer_signal = some 9 ∧
    exampleSignal.spn = some 9 :=
  ⟨rfl, rfl, rfl⟩

/-- The comment-resolution rule exactly as the design states it: prefer the
unlabeled (None-keyed) entry, else the "FOR-ALL" entry, else the "EN" entry,
else no comment. -/
def specCommentResolution (comments : Option Comments) : Option String :=
  match comments with
  | none => none
  | some m =>
    match commentsGet m none, commentsGet m (some "FOR-ALL"), commentsGet m (some "EN") with
    | some c, _, _ => some c
    | none, some c, _ => some c
    | none, none, r => r

/-- C5: the Signal.comment getter follows the stated resolution rule over the
comments mapping, returning none when the mapping itself is absent, and the
Bus.comment getter follows the same rule whenever the stored comments value
is a mapping. -/
theorem comment_resolution_rule (s : Signal) (b : Bus) (m : Comments)
    (hb : b.comments = .dict m) :
    s.comment = specCommentResolution s.comments ∧
    b.comment = .ok (specCommentResolution (some m)) := by
  constructor
  · unfold Signal.comment specCommentResolution
    cases s.comments with
    | none => rfl
    | some cm =>
      cases hN : commentsGet cm none <;>
        cases hF : commentsGet cm (some "FOR-ALL") <;>
          cases hE : commentsGet cm (some "EN") <;> simp [hN, hF, hE]
  · unfold Bus.comment specCommentResolution
    rw [hb]
    cases hN : commentsGet m none <;>
      cases hF : commentsGet m (some "FOR-ALL") <;>
        cases hE : commentsGet m (some "EN") <;> simp [hN, hF, hE]

/-- A comments mapping with only an "EN" entry. -/
def exMap : Comments := [(some "EN", "english")]

/-- A signal carrying only the "EN" comment. -/
def exSignalEn : Signal :=
  Signal.init "t" 0 8 "little_endian" false none none none none none none none
    (.dict exMap) none false none none none

/-- A bus carrying only the "EN" comment. -/
def exBusEn : Bus := Bus.init "b" (.dict exMap) none none none

/-- Witness for C5 at a concrete signal and bus whose comments mapping holds
only an "EN" entry. -/
theorem comment_resolution_rule_witness :
    exSignalEn.comment = specCommentResolution exSignalEn.comments ∧
    exBusEn.comment = .ok (specCommentResolution (some exMap)) :=
  comment_resolution_rule exSignalEn exBusEn exMap rfl

/-- C6: each of the four conversion-backed setters installs a fresh
conversion built by the factory from the assigned value together with the
current values of the other three fields, so the assigned property reads
back as the new value and the other three properties read back unchanged. -/
theorem setters_functional_update (s : Signal) (v w : Rat)
    (cs : Option (List (Int × String))) (b : Bool) :
    ((s.set_scale v).scale = v ∧ (s.set_scale v).offset = s.offset ∧
      (s.set_scale v).choices = s.choices ∧ (s.set_scale v).is_float = s.is_float ∧
      (s.set_scale v).conversion =
        BaseConversion.factory v s.conversion.offset s.conversion.choices
          s.conversion.is_float) ∧
    ((s.set_offset w).scale = s.scale ∧ (s.set_offset w).offset = w ∧
      (s.set_offset w).choices = s.choices ∧ (s.set_offset w).is_float = s.is_float ∧
      (s.set_offset w).conversion =
        BaseConversion.factory s.conversion.scale w s.conversion.choices
          s.conversion.is_float) ∧
    ((s.set_choices cs).scale = s.scale ∧ (s.set_choices cs).offset = s.offset ∧
      (s.set_choices cs).choices = cs ∧ (s.set_choices cs).is_float = s.is_float ∧
      (s.set_choices cs).conversion =
        BaseConversion.factory s.conversion.scale s.conversion.offset cs
          s.conversion.is_float) ∧
    ((s.set_is_float b).scale = s.scale ∧ (s.set_is_float b).offset = s.offset ∧
      (s.set_is_float b).choices = s.choices ∧ (s.set_is_float b).is_float = b ∧
      (s.set_is_float b).conversion =
        BaseConversion.factory s.conversion.scale s.conversion.offset
          s.conversion.choices b) :=
  ⟨⟨rfl, rfl, rfl, rfl, rfl⟩, ⟨rfl, rfl, rfl, rfl, rfl⟩,
   ⟨rfl, rfl, rfl, rfl, rfl⟩, ⟨rfl, rfl, rfl, rfl, rfl⟩⟩

/-- A concrete bus built with baudrate=250000 and fd_baudrate=1000000. -/
def exampleBus : Bus := Bus.init "bus1" .none (some 250000) (some 1000000) none

/-- C7: the constructor assigns the FD baudrate field from the base baudrate
parameter: built with baudrate=250000 and fd_baudrate=1000000, the
fd_baudrate property returns 250000 instead of 1000000. -/
theorem bus_fd_baudrate_from_baudrate :
    exampleBus.baudrate = some 250000 ∧ exampleBus.fd_baudrate = some 250000 :=
  ⟨rfl, rfl⟩

/-- A concrete internal database built with messages=["msg1"], nodes=[7],
buses=[], version="1.0", dbc_specifics="dbcinfo", autosar_specifics=3. -/
def exampleDb : InternalDatabase String Nat String Nat :=
  InternalDatabase.init ["msg1"] [7] [] (some "1.0") (some "dbcinfo") (some 3)

/-- C8: the constructor swaps messages with nodes, discards the version, and
swaps the dbc and autosar specifics: the object holds messages=[7] (the
nodes), nodes=["msg1"] (the messages), version=None, dbc=3 (the autosar
specifics) and autosar="dbcinfo" (the dbc specifics). -/
theorem internal_database_swaps :
    exampleDb.messages = [7] ∧ exampleDb.nodes = ["msg1"] ∧
    exampleDb.buses = [] ∧ exampleDb.version = none ∧
    exampleDb.dbc = some 3 ∧ exampleDb.autosar = some "dbcinfo" :=
  ⟨rfl, rfl, rfl, rfl, rfl, rfl⟩

/-- C9: for every string, num returns the float value whenever the float
parse accepts the string, propagates a ValueError when both the float and
the int parse reject it, and the fallback returning 0 is unreachable; in
particular the integer-formatted string "7" yields the float 7, never an
int. -/
theorem num_behaviour (s : String) :
    (∀ q : Rat, pyFloat s = .ok q → num s = .float q) ∧
    (pyFloat s = .error .valueError → pyInt s = .error .valueError →
      num s = .raised .valueError) ∧
    num s ≠ .zero ∧ num "7" = .float 7 := by
  refine ⟨?_, ?_, ?_, ?_⟩
  · intro q h
    unfold num
    rw [h]
  · intro h1 h2
    unfold num
    rw [h1, h2]
  · unfold num pyFloat
    cases pyFloatCore s.toList with
    | some q => simp
    | none => cases h : pyInt s <;> simp
  · rfl

/-- Witness for C9 at the concrete string "x2", rejected by both parses. -/
theorem num_behaviour_witness : num "x2" = .raised .valueError :=
  (num_behaviour "x2").2.1 rfl rfl

/-- C10: constructing a Bus with no comment stores the plain string
"Default comment" (not None), and constructing it with a string comment c
stores the bare string c (not a single-entry None-keyed mapping); in both
cases the comment property's mapping-based language lookup is applied to a
plain string, which raises AttributeError. -/
theorem bus_comments_plain_string (n : String) (c : String) (b f : Option Int)
    (a : Option Unit) :
    (Bus.init n .none b f a).comments = .str "Default comment" ∧
    (Bus.init n (.str c) b f a).comments = .str c ∧
    (Bus.init n .none b f a).comment = .error "AttributeError" ∧
    (Bus.init n (.str c) b f a).comment = .error "AttributeError" :=
  ⟨rfl, rfl, rfl, rfl⟩
